import Mathlib

/-!
Shallow embedding of the authentication core of the entryForm repository:
the simulated backend request handlers and their temp-token store
(src/mocks/handlers), the axios client error classification (src/api/auth.ts),
the token persistence helpers (src/api/auth.ts), the page-level
authentication flow state (src/pages/LoginPage.tsx) and the two
error-message renderers (AuthForm and TwoFactorForm).
-/

namespace EntryForm

/-- Embeds the User interface of src/api/types.ts. -/
structure User where
  id : Int
  email : String
deriving Repr, DecidableEq

/-- Embeds the LoginResponse interface of src/api/types.ts.
tempToken is optional in the source, hence Option here. -/
structure LoginResponse where
  token : String
  user : User
  requires2FA : Bool
  tempToken : Option String
deriving Repr, DecidableEq

/-- Embeds the Verify2FAResponse interface of src/api/types.ts. -/
structure Verify2FAResponse where
  token : String
  user : User
deriving Repr, DecidableEq

/-- Embeds the ApiError interface of src/api/types.ts: a response body
with an error code string and a human readable message. -/
structure ApiError where
  error : String
  message : String
deriving Repr, DecidableEq

/-- A JSON response body as seen by the error classifier: either a body of
the ApiError shape, or any other (malformed or unexpected) value, kept
abstract as a raw string. -/
inductive RespData where
  | api (e : ApiError)
  | other (raw : String)
deriving Repr, DecidableEq

/-- Embeds the ApiErrorResponse interface of src/api/types.ts: the value
thrown by the client catch blocks, a status plus a body. The body is
RespData because the catch block rethrows response.data unchanged,
whatever shape it has. -/
structure ApiErrorResponse where
  status : Nat
  data : RespData
deriving Repr, DecidableEq

/-- The value stored for each temp token in the tempTokenStore of the
request handlers: the email of the pending login and a creation time. -/
structure TokenData where
  email : String
  createdAt : Nat
deriving Repr, DecidableEq

/-- The tempTokenStore Map of the request handlers, embedded as an
association list from token string to TokenData. -/
abbrev Store := List (String × TokenData)

/-- Map.set semantics: overwrite the value at an existing key, otherwise
append a new entry. -/
def storeSet : Store → String → TokenData → Store
  | [], k, v => [(k, v)]
  | (k0, v0) :: rest, k, v =>
    if k0 = k then (k, v) :: rest else (k0, v0) :: storeSet rest k v

/-- Map.get semantics: first value bound to the key, if any. -/
def storeGet : Store → String → Option TokenData
  | [], _ => none
  | (k0, v0) :: rest, k => if k0 = k then some v0 else storeGet rest k

/-- Map.delete semantics: remove every entry bound to the key. -/
def storeDel : Store → String → Store
  | [], _ => []
  | (k0, v0) :: rest, k =>
    if k0 = k then storeDel rest k else (k0, v0) :: storeDel rest k

/-- TEST_USERS.valid.email of the request handlers. -/
def validEmail : String := "test@example.com"

/-- TEST_USERS.valid.password of the request handlers. -/
def validPassword : String := "password123"

/-- TEST_USERS.notFound.email of the request handlers. -/
def notFoundEmail : String := "notfound@example.com"

/-- TEST_USERS.serverError.email of the request handlers. -/
def serverErrorEmail : String := "error@example.com"

/-- TEST_USERS.slowResponse.email of the request handlers. -/
def slowEmail : String := "slow@example.com"

/-- TEST_USERS.timeout.email of the request handlers. -/
def timeoutEmail : String := "timeout@example.com"

/-- TEST_USERS.offline.email of the request handlers. -/
def offlineEmail : String := "offline@example.com"

/-- TEST_2FA_CODES.valid of the request handlers. -/
def valid2FACode : String := "123456"

/-- TEST_2FA_CODES.expired of the request handlers. -/
def expired2FACode : String := "000000"

/-- TEST_2FA_CODES.timeout of the request handlers. -/
def timeout2FACode : String := "999999"

/-- The temp token issued by the login handler, built from Date.now(). -/
def mkTempToken (now : Nat) : String := "temp-token-" ++ toString now

/-- Result of one call to the login request handler. plainOk is the 200
response carrying only a message field (the timeout branch); connError is
HttpResponse.error(), the simulated transport failure; err is a JSON
error body with an HTTP status. Each response-producing branch records
the artificial delay in milliseconds. -/
inductive LoginResult where
  | ok (delayMs : Nat) (resp : LoginResponse)
  | plainOk (delayMs : Nat) (msg : String)
  | connError
  | err (delayMs : Nat) (status : Nat) (body : ApiError)
deriving Repr, DecidableEq

/-- Embeds the POST /api/auth/login request handler: the ordered decision
chain on the email (slow, timeout, offline, server error, not found,
wrong password, valid credentials, default not found), threading the
tempTokenStore and using now for Date.now(). -/
def loginHandler (store : Store) (now : Nat) (email password : String) :
    Store × LoginResult :=
  if email = slowEmail then
    (storeSet store (mkTempToken now) ⟨email, now⟩,
     .ok 3000 ⟨"", ⟨2, email⟩, true, some (mkTempToken now)⟩)
  else if email = timeoutEmail then
    (store, .plainOk 30000 "This should timeout")
  else if email = offlineEmail then
    (store, .connError)
  else if email = serverErrorEmail then
    (store, .err 500 500 ⟨"server_error", "Something went wrong"⟩)
  else if email = notFoundEmail then
    (store, .err 500 404 ⟨"user_not_found", "User does not exist"⟩)
  else if email = validEmail ∧ password ≠ validPassword then
    (store, .err 500 401 ⟨"invalid_credentials", "Email or password is incorrect"⟩)
  else if email = validEmail ∧ password = validPassword then
    (storeSet store (mkTempToken now) ⟨email, now⟩,
     .ok 800 ⟨"", ⟨1, email⟩, true, some (mkTempToken now)⟩)
  else
    (store, .err 500 404 ⟨"user_not_found", "User does not exist"⟩)

/-- Result of one call to the verify-2fa request handler, with the same
reading of the constructors as LoginResult. -/
inductive VerifyResult where
  | ok (delayMs : Nat) (resp : Verify2FAResponse)
  | plainOk (delayMs : Nat) (msg : String)
  | err (delayMs : Nat) (status : Nat) (body : ApiError)
deriving Repr, DecidableEq

/-- True exactly on the successful-verification result. -/
def VerifyResult.isOk : VerifyResult → Bool
  | .ok _ _ => true
  | _ => false

/-- Embeds the POST /api/auth/verify-2fa request handler: timeout code
first, then token lookup, then expired code, then any non-valid code,
then the success branch that deletes the temp token. -/
def verifyHandler (store : Store) (tempToken code : String) :
    Store × VerifyResult :=
  if code = timeout2FACode then
    (store, .plainOk 30000 "This should timeout")
  else
    match storeGet store tempToken with
    | none =>
      (store, .err 500 401
        ⟨"2fa_expired", "2FA session has expired. Please login again."⟩)
    | some tokenData =>
      if code = expired2FACode then
        (store, .err 500 401
          ⟨"2fa_expired", "2FA code has expired. Please request a new code."⟩)
      else if code ≠ valid2FACode then
        (store, .err 500 401
          ⟨"invalid_2fa_code", "Invalid verification code. Please try again."⟩)
      else
        (storeDel store tempToken,
         .ok 800 ⟨"fake-jwt-token-after-2fa", ⟨1, tokenData.email⟩⟩)

/-- The raw failure value reaching a catch block in src/api/auth.ts:
either an axios error (with an optional error code string and an optional
received response), or any non-axios thrown value. -/
inductive RawFailure where
  | axios (code : Option String) (response : Option ApiErrorResponse)
  | notAxios (desc : String)
deriving Repr, DecidableEq

/-- Embeds the catch block of login in src/api/auth.ts: no response plus
ECONNABORTED gives timeout_error 0, no response otherwise gives
network_error 0, a received response is rethrown with its status and data
unchanged, and a non-axios value gives unknown_error 0. -/
def classifyLoginFailure (e : RawFailure) : ApiErrorResponse :=
  match e with
  | .axios code response =>
    match response with
    | none =>
      if code = some "ECONNABORTED" then
        ⟨0, .api ⟨"timeout_error", "Request timed out"⟩⟩
      else
        ⟨0, .api ⟨"network_error", "Network error occurred"⟩⟩
    | some resp => ⟨resp.status, resp.data⟩
  | .notAxios _ =>
    ⟨0, .api ⟨"unknown_error", "An unexpected error occurred"⟩⟩

/-- Embeds the catch block of verify2FA in src/api/auth.ts, which is
textually the same classification as the login catch block. -/
def classifyVerify2FAFailure (e : RawFailure) : ApiErrorResponse :=
  match e with
  | .axios code response =>
    match response with
    | none =>
      if code = some "ECONNABORTED" then
        ⟨0, .api ⟨"timeout_error", "Request timed out"⟩⟩
      else
        ⟨0, .api ⟨"network_error", "Network error occurred"⟩⟩
    | some resp => ⟨resp.status, resp.data⟩
  | .notAxios _ =>
    ⟨0, .api ⟨"unknown_error", "An unexpected error occurred"⟩⟩

/-- The auth_token slot of localStorage: absent or a stored string. -/
abbrev LocalStorage := Option String

/-- Embeds saveToken of src/api/auth.ts. -/
def saveToken (t : String) (_ls : LocalStorage) : LocalStorage := some t

/-- Embeds getToken of src/api/auth.ts. -/
def getToken (ls : LocalStorage) : Option String := ls

/-- Embeds removeToken of src/api/auth.ts. -/
def removeToken (_ls : LocalStorage) : LocalStorage := none

/-- Embeds isAuthenticated of src/api/auth.ts: the double negation of
getToken, so false on a missing item and false on the empty string. -/
def isAuthenticated (ls : LocalStorage) : Bool :=
  match getToken ls with
  | none => false
  | some t => !(t == "")

/-- The TwoFactorState value of LoginPage. -/
structure TwoFactorState where
  tempToken : String
  userEmail : String
deriving Repr, DecidableEq

/-- The authentication flow state owned by LoginPage: the optional
TwoFactorState and the isFullyAuthenticated flag. -/
structure PageState where
  twoFactorState : Option TwoFactorState
  isFullyAuthenticated : Bool
deriving Repr, DecidableEq

/-- The initial LoginPage state: no 2FA state, not authenticated. -/
def initialPageState : PageState := ⟨none, false⟩

/-- Events driving the LoginPage flow state: a successful login response,
a successful verify response, a failed request (which changes no flow
state), the back-to-login action, and the demo sign-out reset. -/
inductive FlowEvent where
  | loginSuccess (r : LoginResponse)
  | verifySuccess (r : Verify2FAResponse)
  | failure (e : ApiErrorResponse)
  | backToLogin
  | signOut
deriving Repr, DecidableEq

/-- Embeds the LoginPage state updates: handleLoginSuccess branches on
requires2FA and on a truthy (present and non-empty) tempToken,
handle2FASuccess sets isFullyAuthenticated, handleBackToLogin clears the
2FA state, and the sign-out button resets both fields. A failure leaves
the state unchanged (the mutations only update flow state onSuccess). -/
def flowStep (s : PageState) (e : FlowEvent) : PageState :=
  match e with
  | .loginSuccess r =>
    match r.tempToken with
    | some t =>
      if r.requires2FA ∧ t ≠ "" then
        { s with twoFactorState := some ⟨t, r.user.email⟩ }
      else
        { s with isFullyAuthenticated := true }
    | none => { s with isFullyAuthenticated := true }
  | .verifySuccess _ => { s with isFullyAuthenticated := true }
  | .failure _ => s
  | .backToLogin => { s with twoFactorState := none }
  | .signOut => ⟨none, false⟩

/-- Run the flow from the initial LoginPage state over a list of events. -/
def flowRun (events : List FlowEvent) : PageState :=
  events.foldl flowStep initialPageState

/-- True exactly on the events whose flowStep can set
isFullyAuthenticated: a verify success, or a login success taking the
direct branch (requires2FA false, or tempToken absent or empty). -/
def setsAuthenticated : FlowEvent → Bool
  | .verifySuccess _ => true
  | .loginSuccess r =>
    match r.tempToken with
    | some t => !(r.requires2FA && !(t == ""))
    | none => true
  | .failure _ => false
  | .backToLogin => false
  | .signOut => false

/-- True exactly on verify-success events. -/
def isVerifySuccess : FlowEvent → Bool
  | .verifySuccess _ => true
  | _ => false

/-- Embeds getErrorMessage of TwoFactorForm: status 0 distinguishes
timeout_error and network_error with a fallback, any other status
switches on the error code for invalid_2fa_code and 2fa_expired and
otherwise yields data.message when truthy, else the fallback. An access
to a field of a malformed body behaves as undefined, hence the fallback
branches for RespData.other. -/
def getErrorMessageTwoFactor (e : ApiErrorResponse) : String :=
  if e.status = 0 then
    match e.data with
    | .api d =>
      if d.error = "timeout_error" then
        "Request timed out. Please try again."
      else if d.error = "network_error" then
        "Connection problem. Please check your network."
      else
        "An unexpected error occurred. Please try again."
    | .other _ => "An unexpected error occurred. Please try again."
  else
    match e.data with
    | .api d =>
      if d.error = "invalid_2fa_code" then
        "Invalid verification code. Please try again."
      else if d.error = "2fa_expired" then
        "Verification session expired. Please login again."
      else if d.message = "" then
        "An unexpected error occurred."
      else
        d.message
    | .other _ => "An unexpected error occurred."

/-- Embeds getErrorMessage of AuthForm: status 0 distinguishes
timeout_error and network_error with a fallback, and any other status is
mapped through the switch on the status value (401, 404, 500, default
data.message when truthy else fallback). -/
def getErrorMessageAuth (e : ApiErrorResponse) : String :=
  if e.status = 0 then
    match e.data with
    | .api d =>
      if d.error = "timeout_error" then
        "Request timed out. Please try again."
      else if d.error = "network_error" then
        "Connection problem. Please check your network."
      else
        "An unexpected error occurred. Please try again."
    | .other _ => "An unexpected error occurred. Please try again."
  else if e.status = 401 then
    "Incorrect email or password."
  else if e.status = 404 then
    "User not found."
  else if e.status = 500 then
    "Server error. Please try again later."
  else
    match e.data with
    | .api d => if d.message = "" then "An unexpected error occurred." else d.message
    | .other _ => "An unexpected error occurred."

/-- A key just written by storeSet is found by storeGet. -/
theorem storeGet_set_self (s : Store) (k : String) (v : TokenData) :
    storeGet (storeSet s k v) k = some v := by
  induction s with
  | nil => simp [storeSet, storeGet]
  | cons hd tl ih =>
    obtain ⟨k0, v0⟩ := hd
    by_cases h : k0 = k
    · simp [storeSet, storeGet, h]
    · simp [storeSet, storeGet, h, ih]

/-- A key removed by storeDel is no longer found by storeGet. -/
theorem storeGet_del_self (s : Store) (k : String) :
    storeGet (storeDel s k) k = none := by
  induction s with
  | nil => simp [storeDel, storeGet]
  | cons hd tl ih =>
    obtain ⟨k0, v0⟩ := hd
    by_cases h : k0 = k
    · simp [storeDel, h, ih]
    · simp [storeDel, storeGet, h, ih]

/-- The issued temp token is never the empty string. -/
theorem mkTempToken_ne_empty (now : Nat) : mkTempToken now ≠ "" := by
  intro h
  have hlen := congrArg String.length h
  simp [mkTempToken, String.length_append] at hlen
  exact absurd hlen.1 (by decide)

/-- If flowStep reaches an authenticated state, either the previous state
was already authenticated or the event is one that sets authentication. -/
theorem flowStep_authenticated (s : PageState) (e : FlowEvent)
    (h : (flowStep s e).isFullyAuthenticated = true) :
    s.isFullyAuthenticated = true ∨ setsAuthenticated e = true := by
  cases e with
  | loginSuccess r =>
    cases hr : r.tempToken with
    | none => exact Or.inr (by simp [setsAuthenticated, hr])
    | some t =>
      by_cases hcond : r.requires2FA ∧ t ≠ ""
      · left
        simpa [flowStep, hr, hcond] using h
      · right
        rcases not_and_or.mp hcond with hb | ht
        · simp at hb
          simp [setsAuthenticated, hr, hb]
        · simp at ht
          simp [setsAuthenticated, hr, ht]
  | verifySuccess r => exact Or.inr rfl
  | failure e => exact Or.inl h
  | backToLogin => exact Or.inl (by simpa [flowStep] using h)
  | signOut => simp [flowStep] at h

/-- Folding flowStep over a list of events reaches an authenticated state
only from an already authenticated start state or through an event that
sets authentication. -/
theorem flowRun_authenticated_aux (events : List FlowEvent) :
    ∀ s : PageState, (events.foldl flowStep s).isFullyAuthenticated = true →
      s.isFullyAuthenticated = true ∨ ∃ e ∈ events, setsAuthenticated e = true := by
  induction events with
  | nil => intro s h; exact Or.inl h
  | cons ev rest ih =>
    intro s h
    rcases ih (flowStep s ev) h with h1 | ⟨e, he, hse⟩
    · rcases flowStep_authenticated s ev h1 with h2 | h2
      · exact Or.inl h2
      · exact Or.inr ⟨ev, List.mem_cons_self _ _, h2⟩
    · exact Or.inr ⟨e, List.mem_cons_of_mem _ he, hse⟩

/-- C3: in both the login and the verify2FA catch blocks, every failure
without a received response is classified with status 0, as timeout_error
exactly when the axios error code is ECONNABORTED and as network_error in
every other case. -/
theorem C3_no_response_classification (code : Option String) :
    (classifyLoginFailure (RawFailure.axios code none)).status = 0
    ∧ (classifyVerify2FAFailure (RawFailure.axios code none)).status = 0
    ∧ (code = some "ECONNABORTED" →
        classifyLoginFailure (RawFailure.axios code none)
          = ⟨0, RespData.api ⟨"timeout_error", "Request timed out"⟩⟩
        ∧ classifyVerify2FAFailure (RawFailure.axios code none)
          = ⟨0, RespData.api ⟨"timeout_error", "Request timed out"⟩⟩)
    ∧ (code ≠ some "ECONNABORTED" →
        classifyLoginFailure (RawFailure.axios code none)
          = ⟨0, RespData.api ⟨"network_error", "Network error occurred"⟩⟩
        ∧ classifyVerify2FAFailure (RawFailure.axios code none)
          = ⟨0, RespData.api ⟨"network_error", "Network error occurred"⟩⟩) := by
  by_cases h : code = some "ECONNABORTED" <;>
    simp [classifyLoginFailure, classifyVerify2FAFailure, h]

/-- Witness for C3 at the concrete codes ECONNABORTED and none. -/
theorem C3_no_response_classification_witness :
    classifyLoginFailure (RawFailure.axios (some "ECONNABORTED") none)
      = ⟨0, RespData.api ⟨"timeout_error", "Request timed out"⟩⟩
    ∧ classifyVerify2FAFailure (RawFailure.axios none none)
      = ⟨0, RespData.api ⟨"network_error", "Network error occurred"⟩⟩ :=
  ⟨((C3_no_response_classification (some "ECONNABORTED")).2.2.1 rfl).1,
   ((C3_no_response_classification none).2.2.2 (by simp)).2⟩

/-- C4 counterexample: a received response whose body is malformed is not
mapped to unknown_error with status 0; the catch block rethrows it with
its HTTP status and body unchanged. -/
theorem C4_counterexample :
    classifyLoginFailure
        (RawFailure.axios none (some ⟨418, RespData.other "not an api error body"⟩))
      = ⟨418, RespData.other "not an api error body"⟩
    ∧ (classifyLoginFailure
        (RawFailure.axios none (some ⟨418, RespData.other "not an api error body"⟩))).status ≠ 0
    ∧ (classifyLoginFailure
        (RawFailure.axios none (some ⟨418, RespData.other "not an api error body"⟩))).data
      ≠ RespData.api ⟨"unknown_error", "An unexpected error occurred"⟩ := by
  refine ⟨rfl, ?_, ?_⟩ <;> simp [classifyLoginFailure]

/-- C4 (amended): the classification is total (each failure shape maps to
exactly one outcome, nothing escapes unclassified); every received
response is rethrown with its HTTP status and body unchanged, whether or
not the body carries one of the five explicit codes; every non-axios
failure maps to unknown_error with status 0; and the verify2FA
classification agrees with the login classification everywhere. -/
theorem C4_amended_classification_total (e : RawFailure) :
    (∃! o : ApiErrorResponse, classifyLoginFailure e = o)
    ∧ (∀ code resp, e = RawFailure.axios code (some resp) →
        classifyLoginFailure e = ⟨resp.status, resp.data⟩)
    ∧ (∀ d, e = RawFailure.notAxios d →
        classifyLoginFailure e
          = ⟨0, RespData.api ⟨"unknown_error", "An unexpected error occurred"⟩⟩)
    ∧ classifyVerify2FAFailure e = classifyLoginFailure e := by
  refine ⟨⟨classifyLoginFailure e, rfl, fun y hy => hy.symm⟩, ?_, ?_, ?_⟩
  · rintro code resp rfl; rfl
  · rintro d rfl; rfl
  · cases e with
    | axios code response => cases response <;> rfl
    | notAxios d => rfl

/-- Witness for C4 (amended) at a concrete received response and at a
concrete non-axios failure. -/
theorem C4_amended_classification_total_witness :
    classifyLoginFailure
        (RawFailure.axios none
          (some ⟨500, RespData.api ⟨"server_error", "Something went wrong"⟩⟩))
      = ⟨500, RespData.api ⟨"server_error", "Something went wrong"⟩⟩
    ∧ classifyLoginFailure (RawFailure.notAxios "thrown string")
      = ⟨0, RespData.api ⟨"unknown_error", "An unexpected error occurred"⟩⟩ :=
  ⟨(C4_amended_classification_total _).2.1 none
      ⟨500, RespData.api ⟨"server_error", "Something went wrong"⟩⟩ rfl,
   (C4_amended_classification_total _).2.2.1 "thrown string" rfl⟩

/-- C8 counterexample: the two renderers do not both follow the table on
all seven codes. The 2FA renderer shown user_not_found with status 404
returns the raw server message, not the table string, and the login
renderer shown 2fa_expired with status 401 returns the 401 string of its
own flow, not the table string for 2fa_expired. -/
theorem C8_counterexample :
    getErrorMessageTwoFactor ⟨404, RespData.api ⟨"user_not_found", "User does not exist"⟩⟩
      = "User does not exist"
    ∧ getErrorMessageTwoFactor ⟨404, RespData.api ⟨"user_not_found", "User does not exist"⟩⟩
      ≠ "User not found."
    ∧ getErrorMessageAuth
        ⟨401, RespData.api ⟨"2fa_expired", "2FA session has expired. Please login again."⟩⟩
      = "Incorrect email or password."
    ∧ getErrorMessageAuth
        ⟨401, RespData.api ⟨"2fa_expired", "2FA session has expired. Please login again."⟩⟩
      ≠ "Verification session expired. Please login again." := by
  refine ⟨rfl, by decide, rfl, by decide⟩

/-- C8 (amended): each renderer follows the table exactly on the codes of
its own flow, for any message field: the login renderer on timeout_error
and network_error at status 0 and on the 401, 404 and 500 statuses of
invalid_credentials, user_not_found and server_error; the 2FA renderer on
timeout_error and network_error at status 0 and on invalid_2fa_code and
2fa_expired at status 401. -/
theorem C8_amended_message_table (m : String) :
    getErrorMessageAuth ⟨0, RespData.api ⟨"timeout_error", m⟩⟩
      = "Request timed out. Please try again."
    ∧ getErrorMessageAuth ⟨0, RespData.api ⟨"network_error", m⟩⟩
      = "Connection problem. Please check your network."
    ∧ getErrorMessageAuth ⟨401, RespData.api ⟨"invalid_credentials", m⟩⟩
      = "Incorrect email or password."
    ∧ getErrorMessageAuth ⟨404, RespData.api ⟨"user_not_found", m⟩⟩
      = "User not found."
    ∧ getErrorMessageAuth ⟨500, RespData.api ⟨"server_error", m⟩⟩
      = "Server error. Please try again later."
    ∧ getErrorMessageTwoFactor ⟨0, RespData.api ⟨"timeout_error", m⟩⟩
      = "Request timed out. Please try again."
    ∧ getErrorMessageTwoFactor ⟨0, RespData.api ⟨"network_error", m⟩⟩
      = "Connection problem. Please check your network."
    ∧ getErrorMessageTwoFactor ⟨401, RespData.api ⟨"invalid_2fa_code", m⟩⟩
      = "Invalid verification code. Please try again."
    ∧ getErrorMessageTwoFactor ⟨401, RespData.api ⟨"2fa_expired", m⟩⟩
      = "Verification session expired. Please login again." := by
  refine ⟨?_, ?_, ?_, ?_, ?_, ?_, ?_, ?_, ?_⟩ <;> rfl

/-- C1: a PendingSession token is single-use. With the token live in the
store, verifying with the valid code succeeds and removes the entry, and
verifying again with the same token and the same valid code fails with
401 2fa_expired while leaving the store as it was. -/
theorem C1_token_single_use (store : Store) (tok : String) (d : TokenData)
    (h : storeGet store tok = some d) :
    (verifyHandler store tok valid2FACode).2
      = VerifyResult.ok 800 ⟨"fake-jwt-token-after-2fa", ⟨1, d.email⟩⟩
    ∧ storeGet (verifyHandler store tok valid2FACode).1 tok = none
    ∧ verifyHandler (verifyHandler store tok valid2FACode).1 tok valid2FACode
      = ((verifyHandler store tok valid2FACode).1,
         VerifyResult.err 500 401
           ⟨"2fa_expired", "2FA session has expired. Please login again."⟩) := by
  have h1 : verifyHandler store tok valid2FACode
      = (storeDel store tok,
         VerifyResult.ok 800 ⟨"fake-jwt-token-after-2fa", ⟨1, d.email⟩⟩) := by
    simp [verifyHandler, valid2FACode, timeout2FACode, expired2FACode, h]
  have h2 : storeGet (storeDel store tok) tok = none := storeGet_del_self store tok
  refine ⟨by rw [h1], by rw [h1]; exact h2, ?_⟩
  rw [h1]
  simp [verifyHandler, valid2FACode, timeout2FACode, h2]

/-- Witness for C1 at a concrete one-entry store. -/
theorem C1_token_single_use_witness :
    (verifyHandler [("t1", ⟨"test@example.com", 5⟩)] "t1" valid2FACode).2
      = VerifyResult.ok 800 ⟨"fake-jwt-token-after-2fa", ⟨1, "test@example.com"⟩⟩
    ∧ storeGet (verifyHandler [("t1", ⟨"test@example.com", 5⟩)] "t1" valid2FACode).1 "t1" = none :=
  ⟨(C1_token_single_use [("t1", ⟨"test@example.com", 5⟩)] "t1" ⟨"test@example.com", 5⟩ rfl).1,
   (C1_token_single_use [("t1", ⟨"test@example.com", 5⟩)] "t1" ⟨"test@example.com", 5⟩ rfl).2.1⟩

/-- C2 counterexample: delivering a single successful login response with
requires2FA false makes the flow state Authenticated although no verify
success event is in the sequence, through the direct-login branch of
handleLoginSuccess. -/
theorem C2_counterexample :
    (flowRun [FlowEvent.loginSuccess ⟨"", ⟨1, "direct@example.com"⟩, false, none⟩]).isFullyAuthenticated
      = true
    ∧ List.any [FlowEvent.loginSuccess ⟨"", ⟨1, "direct@example.com"⟩, false, none⟩]
        isVerifySuccess = false :=
  ⟨rfl, rfl⟩

/-- C2 (amended): the flow state is Authenticated only if some processed
event is either a successful verify response or a successful login
response taking the direct branch (requires2FA false, or tempToken absent
or empty); in particular, when every login response in the sequence has
the shape the backend issues on success (requires2FA true with a
non-empty tempToken), Authenticated implies that a successful verify
response was processed. -/
theorem C2_amended_authenticated_only_via_verify (events : List FlowEvent)
    (h : ∀ r, FlowEvent.loginSuccess r ∈ events →
        r.requires2FA = true ∧ ∃ t, r.tempToken = some t ∧ t ≠ "")
    (hauth : (flowRun events).isFullyAuthenticated = true) :
    ∃ r, FlowEvent.verifySuccess r ∈ events := by
  rcases flowRun_authenticated_aux events initialPageState hauth with h0 | ⟨e, he, hse⟩
  · simp [initialPageState] at h0
  · cases e with
    | verifySuccess r => exact ⟨r, he⟩
    | loginSuccess r =>
      obtain ⟨hreq, t, ht, htne⟩ := h r he
      exfalso
      simp [setsAuthenticated, ht, hreq, htne] at hse
    | failure e => simp [setsAuthenticated] at hse
    | backToLogin => simp [setsAuthenticated] at hse
    | signOut => simp [setsAuthenticated] at hse

/-- Witness for C2 (amended) on a concrete well-formed event sequence. -/
theorem C2_amended_authenticated_only_via_verify_witness :
    ∃ r, FlowEvent.verifySuccess r ∈
      [FlowEvent.loginSuccess ⟨"", ⟨1, "test@example.com"⟩, true, some "temp-token-1"⟩,
       FlowEvent.verifySuccess ⟨"fake-jwt-token-after-2fa", ⟨1, "test@example.com"⟩⟩] :=
  C2_amended_authenticated_only_via_verify _
    (by
      intro r hr
      simp at hr
      subst hr
      exact ⟨rfl, "temp-token-1", rfl, by decide⟩)
    rfl

/-- C5: the login handler, on the valid email with the correct password,
succeeds with requires2FA true, an empty terminal token and the non-empty
issued temp token, storing the PendingSession under that temp token; on
any email outside the designated test emails it fails 404 user_not_found
leaving the store unchanged; and every successful login response it can
produce carries an empty terminal token. -/
theorem C5_login_behavior (store : Store) (now : Nat) (email password : String) :
    loginHandler store now validEmail validPassword
      = (storeSet store (mkTempToken now) ⟨validEmail, now⟩,
         LoginResult.ok 800 ⟨"", ⟨1, validEmail⟩, true, some (mkTempToken now)⟩)
    ∧ mkTempToken now ≠ ""
    ∧ storeGet (loginHandler store now validEmail validPassword).1 (mkTempToken now)
        = some ⟨validEmail, now⟩
    ∧ (email ≠ validEmail → email ≠ notFoundEmail → email ≠ serverErrorEmail →
       email ≠ slowEmail → email ≠ timeoutEmail → email ≠ offlineEmail →
        loginHandler store now email password
          = (store, LoginResult.err 500 404 ⟨"user_not_found", "User does not exist"⟩))
    ∧ (∀ st dms resp, loginHandler store now email password = (st, LoginResult.ok dms resp) →
        resp.token = "") := by
  have hmain : loginHandler store now validEmail validPassword
      = (storeSet store (mkTempToken now) ⟨validEmail, now⟩,
         LoginResult.ok 800 ⟨"", ⟨1, validEmail⟩, true, some (mkTempToken now)⟩) := by
    simp [loginHandler, validEmail, validPassword, slowEmail, timeoutEmail,
      offlineEmail, serverErrorEmail, notFoundEmail]
  refine ⟨hmain, mkTempToken_ne_empty now, ?_, ?_, ?_⟩
  · rw [hmain]
    exact storeGet_set_self store (mkTempToken now) ⟨validEmail, now⟩
  · intro h1 h2 h3 h4 h5 h6
    simp [loginHandler, h1, h2, h3, h4, h5, h6]
  · intro st dms resp h
    unfold loginHandler at h
    repeat' split at h
    all_goals simp_all
    all_goals rw [← h.2.2]

/-- Witness for C5 at a concrete unrecognized email. -/
theorem C5_login_behavior_witness :
    loginHandler [] 7 "someoneelse@example.com" "pw"
      = ([], LoginResult.err 500 404 ⟨"user_not_found", "User does not exist"⟩) :=
  (C5_login_behavior [] 7 "someoneelse@example.com" "pw").2.2.2.1
    (by decide) (by decide) (by decide) (by decide) (by decide) (by decide)

/-- C6: every failing verify call leaves the store unchanged (only a
successful verification mutates it), and its error is a 401 whose code
follows the handler case table: 2fa_expired when the token is absent,
2fa_expired for the expired code on a live token, and invalid_2fa_code
for any other non-valid code on a live token. The last three conjuncts
state the positive directions, under the ordered reading in which the
designated timeout code short-circuits the handler. -/
theorem C6_verify_failure_behavior (store : Store) (tok code : String) :
    ((verifyHandler store tok code).2.isOk = false → (verifyHandler store tok code).1 = store)
    ∧ (∀ dms status body, (verifyHandler store tok code).2 = VerifyResult.err dms status body →
        status = 401
        ∧ (storeGet store tok = none → body.error = "2fa_expired")
        ∧ (∀ d, storeGet store tok = some d → code = expired2FACode → body.error = "2fa_expired")
        ∧ (∀ d, storeGet store tok = some d → code ≠ expired2FACode →
            body.error = "invalid_2fa_code" ∧ code ≠ valid2FACode))
    ∧ (code ≠ timeout2FACode → storeGet store tok = none →
        (verifyHandler store tok code).2
          = VerifyResult.err 500 401
              ⟨"2fa_expired", "2FA session has expired. Please login again."⟩)
    ∧ (∀ d, storeGet store tok = some d → code = expired2FACode →
        (verifyHandler store tok code).2
          = VerifyResult.err 500 401
              ⟨"2fa_expired", "2FA code has expired. Please request a new code."⟩)
    ∧ (∀ d, storeGet store tok = some d →
        code ≠ timeout2FACode → code ≠ expired2FACode → code ≠ valid2FACode →
        (verifyHandler store tok code).2
          = VerifyResult.err 500 401
              ⟨"invalid_2fa_code", "Invalid verification code. Please try again."⟩) := by
  refine ⟨?_, ?_, ?_, ?_, ?_⟩
  · by_cases hc : code = timeout2FACode
    · simp [verifyHandler, hc]
    · cases hg : storeGet store tok with
      | none => simp [verifyHandler, hc, hg]
      | some d =>
        by_cases he : code = expired2FACode
        · subst he
          simp [verifyHandler, hg, timeout2FACode, expired2FACode]
        · by_cases hv : code = valid2FACode
          · subst hv
            simp [verifyHandler, hg, timeout2FACode, expired2FACode, valid2FACode,
              VerifyResult.isOk]
          · simp [verifyHandler, hc, hg, he, hv]
  · intro dms status body hbody
    by_cases hc : code = timeout2FACode
    · simp [verifyHandler, hc] at hbody
    · cases hg : storeGet store tok with
      | none =>
        simp [verifyHandler, hc, hg] at hbody
        obtain ⟨-, hs, hb⟩ := hbody
        subst hs
        subst hb
        refine ⟨rfl, fun _ => rfl, ?_, ?_⟩
        · intro d2 hd2
          simp [hg] at hd2
        · intro d2 hd2
          simp [hg] at hd2
      | some d =>
        by_cases he : code = expired2FACode
        · subst he
          simp [verifyHandler, hg, timeout2FACode, expired2FACode] at hbody
          obtain ⟨-, hs, hb⟩ := hbody
          subst hs
          subst hb
          refine ⟨rfl, ?_, ?_, ?_⟩
          · intro hnone
            simp [hg] at hnone
          · intro d2 hd2 _
            rfl
          · intro d2 hd2 hne
            exact absurd rfl hne
        · by_cases hv : code = valid2FACode
          · subst hv
            simp [verifyHandler, hg, timeout2FACode, expired2FACode, valid2FACode] at hbody
          · simp [verifyHandler, hc, hg, he, hv] at hbody
            obtain ⟨-, hs, hb⟩ := hbody
            subst hs
            subst hb
            refine ⟨rfl, ?_, ?_, ?_⟩
            · intro hnone
              simp [hg] at hnone
            · intro d2 hd2 hcode
              exact absurd hcode he
            · intro d2 hd2 _
              exact ⟨rfl, hv⟩
  · intro hc hg
    simp [verifyHandler, hc, hg]
  · intro d hg he
    subst he
    simp [verifyHandler, expired2FACode, timeout2FACode, hg]
  · intro d hg hc he hv
    simp [verifyHandler, hc, hg, he, hv]

/-- Witness for C6: a live token with a wrong (non-expired) code fails
with invalid_2fa_code. -/
theorem C6_verify_failure_behavior_witness :
    (verifyHandler [("t1", ⟨"test@example.com", 5⟩)] "t1" "111111").2
      = VerifyResult.err 500 401
          ⟨"invalid_2fa_code", "Invalid verification code. Please try again."⟩ :=
  (C6_verify_failure_behavior [("t1", ⟨"test@example.com", 5⟩)] "t1" "111111").2.2.2.2
    ⟨"test@example.com", 5⟩ rfl (by decide) (by decide) (by decide)

/-- C7: verifying a live token with the valid code deletes that
PendingSession from the store and returns the VerifiedSession whose user
email is the email recorded when the PendingSession was created and whose
access token is the fixed string fake-jwt-token-after-2fa. -/
theorem C7_verify_success (store : Store) (tok : String) (d : TokenData)
    (h : storeGet store tok = some d) :
    verifyHandler store tok valid2FACode
      = (storeDel store tok,
         VerifyResult.ok 800 ⟨"fake-jwt-token-after-2fa", ⟨1, d.email⟩⟩)
    ∧ storeGet (storeDel store tok) tok = none := by
  constructor
  · simp [verifyHandler, valid2FACode, timeout2FACode, expired2FACode, h]
  · exact storeGet_del_self store tok

/-- Witness for C7 at a concrete one-entry store. -/
theorem C7_verify_success_witness :
    verifyHandler [("tok-a", ⟨"slow@example.com", 7⟩)] "tok-a" valid2FACode
      = ([], VerifyResult.ok 800 ⟨"fake-jwt-token-after-2fa", ⟨1, "slow@example.com"⟩⟩)
    ∧ storeGet (storeDel [("tok-a", ⟨"slow@example.com", 7⟩)] "tok-a") "tok-a" = none :=
  C7_verify_success [("tok-a", ⟨"slow@example.com", 7⟩)] "tok-a" ⟨"slow@example.com", 7⟩ rfl

/-- C9: isAuthenticated is true exactly when a non-empty token string is
stored; saving the empty terminal token of the requires2FA login success
leaves it false, and saving the verify access token makes it true. -/
theorem C9_isAuthenticated_iff (ls : LocalStorage) :
    (isAuthenticated ls = true ↔ ∃ t, getToken ls = some t ∧ t ≠ "")
    ∧ (∀ store now st dms resp,
        loginHandler store now validEmail validPassword = (st, LoginResult.ok dms resp) →
        isAuthenticated (saveToken resp.token ls) = false)
    ∧ isAuthenticated (saveToken "fake-jwt-token-after-2fa" ls) = true := by
  refine ⟨?_, ?_, rfl⟩
  · cases ls with
    | none => simp [isAuthenticated, getToken]
    | some t => by_cases ht : t = "" <;> simp [isAuthenticated, getToken, ht]
  · intro store now st dms resp h
    have heq : (loginHandler store now validEmail validPassword).2
        = LoginResult.ok 800 ⟨"", ⟨1, validEmail⟩, true, some (mkTempToken now)⟩ := by
      simp [loginHandler, validEmail, validPassword, slowEmail, timeoutEmail,
        offlineEmail, serverErrorEmail, notFoundEmail]
    have hsnd := congrArg Prod.snd h
    simp only [] at hsnd
    rw [heq] at hsnd
    injection hsnd.symm with hdm hresp
    subst hresp
    rfl

/-- Witness for C9 with an empty localStorage and the concrete login
success response of the valid credentials. -/
theorem C9_isAuthenticated_iff_witness :
    isAuthenticated (saveToken "" none) = false
    ∧ isAuthenticated (saveToken "fake-jwt-token-after-2fa" none) = true :=
  ⟨(C9_isAuthenticated_iff none).2.1 [] 0 (storeSet [] (mkTempToken 0) ⟨validEmail, 0⟩) 800
      ⟨"", ⟨1, validEmail⟩, true, some (mkTempToken 0)⟩ rfl,
   (C9_isAuthenticated_iff none).2.2⟩

/-- C10: every successful verify response carries the constant user id 1,
and in particular a session created by the slow-response login, whose
login response reports user id 2, still verifies to a VerifiedSession
with user id 1 bound to the stored email. -/
theorem C10_verify_user_id_constant (store : Store) (now : Nat) (tok code pw : String) :
    (∀ st dms resp, verifyHandler store tok code = (st, VerifyResult.ok dms resp) →
        resp.user.id = 1)
    ∧ (loginHandler store now slowEmail pw).2
        = LoginResult.ok 3000 ⟨"", ⟨2, slowEmail⟩, true, some (mkTempToken now)⟩
    ∧ (verifyHandler (loginHandler store now slowEmail pw).1 (mkTempToken now) valid2FACode).2
        = VerifyResult.ok 800 ⟨"fake-jwt-token-after-2fa", ⟨1, slowEmail⟩⟩ := by
  refine ⟨?_, ?_, ?_⟩
  · intro st dms resp h
    unfold verifyHandler at h
    repeat' split at h
    all_goals simp_all
    all_goals rw [← h.2.2]
  · simp [loginHandler]
  · have h1 : (loginHandler store now slowEmail pw).1
        = storeSet store (mkTempToken now) ⟨slowEmail, now⟩ := by
      simp [loginHandler]
    rw [h1]
    have h2 := storeGet_set_self store (mkTempToken now) ⟨slowEmail, now⟩
    simp [verifyHandler, valid2FACode, timeout2FACode, expired2FACode, h2]

/-- Witness for C10 at a concrete store and verify call. -/
theorem C10_verify_user_id_constant_witness :
    (⟨"fake-jwt-token-after-2fa", ⟨1, "slow@example.com"⟩⟩ : Verify2FAResponse).user.id = 1 :=
  (C10_verify_user_id_constant [("t1", ⟨"slow@example.com", 3⟩)] 0 "t1" "123456" "password123").1
    [] 800 ⟨"fake-jwt-token-after-2fa", ⟨1, "slow@example.com"⟩⟩ rfl

end EntryForm
